import Mathlib

/-!
Verification of the natural-language feature-extraction subsystem of the
ai-life-assistant repository (`python-agents/agents/nlp_agent.py`).

The Python source is shallowly embedded: every extractor becomes a pure Lean
function over `String`.  Python `re` patterns are embedded through a small
backtracking matcher (`matchR`) that is adequate for the pattern subset the
source uses (every quantifier in the source's regexes ranges over a
single-character class, so backtracking priority can be enumerated exactly).
Python `datetime` values are modelled by `PyDateTime`; `datetime.now()`
becomes an explicit parameter, and operations that can raise (`datetime(y,m,d)`
construction, overflow on `timedelta` addition, `replace(year=...)`) return
`Option`/`Except` values.  Python floats are modelled by `ℚ`; every arithmetic
step the source performs stays far from IEEE rounding boundaries, so the
rational model is faithful for the properties proved here.
-/

/-! ### Basic Python string helpers -/

/-- Membership of `needle` as a contiguous substring, i.e. Python's
`needle in hay` for strings (character-list infix test). -/
def charsContain (needle : List Char) : List Char → Bool
  | [] => needle.isEmpty
  | c :: t => needle.isPrefixOf (c :: t) || charsContain needle t

/-- Python `needle in hay` for strings. -/
def pyContains (hay needle : String) : Bool := charsContain needle.data hay.data

/-- Python `s.lower()` (character-wise, adequate for the source's ASCII
patterns).  Implemented over the character list so that it reduces inside
the kernel. -/
def pyToLower (s : String) : String := String.mk (s.data.map Char.toLower)

/-- Python `s.strip()`: drop whitespace from both ends. -/
def pyStrip (s : String) : String :=
  String.mk (((s.data.dropWhile Char.isWhitespace).reverse.dropWhile Char.isWhitespace).reverse)

/-- Python `s.endswith(t)`. -/
def pyEndsWith (s t : String) : Bool := t.data.isSuffixOf s.data

def pyWordsAux : List Char → List Char → List String
  | [], acc => if acc = [] then [] else [String.mk acc.reverse]
  | c :: t, acc =>
    if c.isWhitespace then
      (if acc = [] then pyWordsAux t [] else String.mk acc.reverse :: pyWordsAux t [])
    else pyWordsAux t (c :: acc)

/-- Python `s.split()` with no arguments: split on whitespace runs, dropping
empty pieces. -/
def pyWords (s : String) : List String := pyWordsAux s.data []

def splitCharAux (p : Char → Bool) : List Char → List (List Char)
  | [] => [[]]
  | c :: t =>
    if p c then [] :: splitCharAux p t
    else
      match splitCharAux p t with
      | h :: r => (c :: h) :: r
      | [] => [[c]]

/-- Python `s.split(sep)` for a one-character separator (empty pieces kept). -/
def pySplitOn (s : String) (p : Char → Bool) : List String :=
  (splitCharAux p s.data).map String.mk

/-- Python `sep.join(parts)`. -/
def pyJoin (sep : String) (parts : List String) : String :=
  String.mk (List.intercalate sep.data (parts.map String.data))

/-- Python `int(s)` for a string of ASCII digits. -/
def parseNat (s : String) : Nat := s.data.foldl (fun n c => 10 * n + (c.toNat - 48)) 0

/-- Python `float(s)` for a string matching `\d+(\.\d+)?`. -/
def parseFloatQ (s : String) : ℚ :=
  match pySplitOn s (fun c => c = '.') with
  | [i] => (parseNat i : ℚ)
  | [i, f] => (parseNat i : ℚ) + (parseNat f : ℚ) / ((10 : ℚ) ^ f.length)
  | _ => 0

/-- Python `any(word in lower for word in ws)`. -/
def containsAny (lower : String) (ws : List String) : Bool :=
  ws.any (fun w => pyContains lower w)

/-! ### A small regex engine for the source's pattern subset

Every quantifier appearing in `nlp_agent.py`'s regexes applies to a
single-character class (`\d+`, `\s*`, `[^.]+?`, `.+?`, `s?`, `\d{1,2}`, ...),
so a repetition node over a character class, together with sequencing,
ordered alternation, capturing groups, `\b` and `$`, covers all of them.
`matchR` returns the list of possible (end-position, captures) pairs in
Python-`re` backtracking priority order; `search`/`findall` then take the
leftmost match / all non-overlapping matches exactly as `re` does. -/

/-- Character classes used by the source's patterns. -/
inductive CCls where
  | digit
  | space
  | word
  | anyNN
  | notDot
  | oneof (cs : List Char)
  deriving Repr, DecidableEq

/-- Python `\w` (ASCII approximation, adequate for the source's inputs). -/
def isWordChar (c : Char) : Bool := c.isAlphanum || c = '_'

def CCls.matchesChar : CCls → Char → Bool
  | .digit, c => c.isDigit
  | .space, c => c.isWhitespace
  | .word, c => isWordChar c
  | .anyNN, c => c ≠ '\n'
  | .notDot, c => c ≠ '.'
  | .oneof l, c => l.contains c

/-- Regex abstract syntax: literals, repetition of a character class
(with greedy/lazy flag), sequence, ordered alternation, numbered capturing
group, word boundary and end-of-string. -/
inductive RE where
  | eps
  | lit (t : String)
  | rep (c : CCls) (lo : Nat) (hi : Option Nat) (lzy : Bool)
  | seq (a b : RE)
  | alt (a b : RE)
  | grp (i : Nat) (r : RE)
  | bnd
  | eos
  deriving Repr

/-- Captured-group store (groups 1..3 at indices 0..2, `""` when a group
did not participate, as Python `findall` reports). -/
abbrev Caps := List String

def initCaps : Caps := ["", "", ""]

/-- Length of the maximal prefix of `l` whose characters match class `c`. -/
def runLenAux (c : CCls) : List Char → Nat
  | [] => 0
  | a :: t => if c.matchesChar a then runLenAux c t + 1 else 0

def substrOf (s : List Char) (a b : Nat) : String := String.mk ((s.drop a).take (b - a))

def wordAt (s : List Char) (i : Nat) : Bool :=
  match s.drop i with
  | [] => false
  | c :: _ => isWordChar c

/-- All ways `r` can match starting at `pos` in `s`, as (end, captures),
listed in backtracking priority order. -/
def matchR : RE → List Char → Nat → Caps → List (Nat × Caps)
  | .eps, _, pos, caps => [(pos, caps)]
  | .lit t, s, pos, caps =>
      if t.data.isPrefixOf (s.drop pos) then [(pos + t.data.length, caps)] else []
  | .rep c lo hi lzy, s, pos, caps =>
      let run := runLenAux c (s.drop pos)
      let top := match hi with | none => run | some h => min h run
      if top < lo then []
      else
        ((List.range (top + 1 - lo)).map
          (fun j => (pos + (if lzy then lo + j else top - j), caps)))
  | .seq a b, s, pos, caps =>
      ((matchR a s pos caps).map (fun pc => matchR b s pc.1 pc.2)).flatten
  | .alt a b, s, pos, caps => matchR a s pos caps ++ matchR b s pos caps
  | .grp i r, s, pos, caps =>
      (matchR r s pos caps).map (fun pc => (pc.1, pc.2.set (i - 1) (substrOf s pos pc.1)))
  | .bnd, s, pos, caps =>
      let before := if pos = 0 then false else wordAt s (pos - 1)
      if before ≠ wordAt s pos then [(pos, caps)] else []
  | .eos, s, pos, caps => if pos = s.length then [(pos, caps)] else []

/-- Highest-priority match of `r` at position `p`, if any. -/
def reMatchesAt (r : RE) (s : List Char) (p : Nat) : Option (Nat × Caps) :=
  (matchR r s p initCaps).head?

/-- Python `re.search`: leftmost position at which a match exists, with its
highest-priority (end, captures). -/
def reSearchAux (r : RE) (s : List Char) : Option (Nat × Nat × Caps) :=
  (List.range (s.length + 1)).findSome?
    (fun p => (reMatchesAt r s p).map (fun ec => (p, ec.1, ec.2)))

def reSearchB (r : RE) (s : String) : Bool := (reSearchAux r s.data).isSome

/-- `re.search(...).group(1)`, when a match exists. -/
def reSearchG1 (r : RE) (s : String) : Option String :=
  (reSearchAux r s.data).map (fun x => x.2.2.getD 0 "")

/-- Python `re.findall`: repeatedly take the leftmost match, resuming at the
match end (or one past a zero-width match). -/
def reFindAux (r : RE) (s : List Char) : Nat → Nat → List (Nat × Nat × Caps)
  | 0, _ => []
  | fuel + 1, start =>
      match (List.range' start (s.length + 1 - start)).findSome?
          (fun p => (reMatchesAt r s p).map (fun ec => (p, ec.1, ec.2))) with
      | none => []
      | some m => m :: reFindAux r s fuel (if m.1 < m.2.1 then m.2.1 else m.1 + 1)

def reFindallRaw (r : RE) (s : String) : List (Nat × Nat × Caps) :=
  reFindAux r s.data (s.data.length + 2) 0

/-- `re.findall` for a pattern with no capturing group: whole matches. -/
def findallWhole (r : RE) (s : String) : List String :=
  (reFindallRaw r s).map (fun x => substrOf s.data x.1 x.2.1)

/-- `re.findall` for a pattern with one capturing group. -/
def findall1 (r : RE) (s : String) : List String :=
  (reFindallRaw r s).map (fun x => x.2.2.getD 0 "")

/-- `re.findall` for a pattern with two capturing groups. -/
def findall2 (r : RE) (s : String) : List (String × String) :=
  (reFindallRaw r s).map (fun x => (x.2.2.getD 0 "", x.2.2.getD 1 ""))

/-- `re.findall` for a pattern with three capturing groups. -/
def findall3 (r : RE) (s : String) : List (String × String × String) :=
  (reFindallRaw r s).map (fun x => (x.2.2.getD 0 "", x.2.2.getD 1 "", x.2.2.getD 2 ""))

/-! Combinators used to transcribe the source's pattern strings. -/

def reSeqL : List RE → RE
  | [] => .eps
  | [r] => r
  | r :: rest => .seq r (reSeqL rest)

def reAltsL : List RE → RE
  | [] => .eps
  | [r] => r
  | r :: rest => .alt r (reAltsL rest)

/-- `(w1|w2|...)` over literal words, in order. -/
def reLits (ws : List String) : RE := reAltsL (ws.map RE.lit)

/-- `\s*` -/
def ws0 : RE := .rep .space 0 none false
/-- `\s+` -/
def ws1 : RE := .rep .space 1 none false
/-- `\d+` -/
def digits1 : RE := .rep .digit 1 none false
/-- `\d{lo,hi}` -/
def digitsR (lo hi : Nat) : RE := .rep .digit lo (some hi) false
/-- a single optional character, e.g. `s?` -/
def optChar (c : Char) : RE := .rep (.oneof [c]) 0 (some 1) false
/-- `words?`: the literal `w` with an optional trailing `s`. -/
def wordS (w : String) : RE := .seq (.lit w) (optChar 's')
/-- `(w1s?|w2s?|...)` -/
def wordsS (ws : List String) : RE := reAltsL (ws.map wordS)
/-- `.+?` / `[^.]+?` style lazy plus over a class. -/
def lazyPlus (c : CCls) : RE := .rep c 1 none true

/-! ### Python `datetime` model

Calendar arithmetic follows the standard civil-from-days / days-from-civil
algorithms; all dates the source constructs have positive years, where every
integer-division convention agrees, and `Int.ediv`/`Int.emod` (floor for
positive divisors) match Python's `//` and `%`. -/

structure PyDateTime where
  year : Int
  month : Int
  day : Int
  /-- time-of-day, as a fraction of a day, carried through date arithmetic -/
  dayFrac : ℚ := 0
  deriving Repr, DecidableEq

def isLeapYear (y : Int) : Bool :=
  Int.emod y 4 == 0 && (Int.emod y 100 != 0 || Int.emod y 400 == 0)

def daysInMonth (y m : Int) : Int :=
  if m = 2 then (if isLeapYear y then 29 else 28)
  else if m = 4 ∨ m = 6 ∨ m = 9 ∨ m = 11 then 30 else 31

/-- Days since 1970-01-01 of the civil date y-m-d. -/
def daysFromCivil (y m d : Int) : Int :=
  let y2 := if m ≤ 2 then y - 1 else y
  let era := Int.ediv (if 0 ≤ y2 then y2 else y2 - 399) 400
  let yoe := y2 - era * 400
  let mp := Int.emod (m + 9) 12
  let doy := Int.ediv (153 * mp + 2) 5 + d - 1
  let doe := yoe * 365 + Int.ediv yoe 4 - Int.ediv yoe 100 + doy
  era * 146097 + doe - 719468

/-- Civil date of the day `z0` days after 1970-01-01. -/
def civilFromDays (z0 : Int) : Int × Int × Int :=
  let z := z0 + 719468
  let era := Int.ediv (if 0 ≤ z then z else z - 146096) 146097
  let doe := z - era * 146097
  let yoe := Int.ediv (doe - Int.ediv doe 1460 + Int.ediv doe 36524 - Int.ediv doe 146096) 365
  let y := yoe + era * 400
  let doy := doe - (365 * yoe + Int.ediv yoe 4 - Int.ediv yoe 100)
  let mp := Int.ediv (5 * doy + 2) 153
  let d := doy - Int.ediv (153 * mp + 2) 5 + 1
  let m := mp + (if mp < 10 then 3 else -3)
  (y + (if m ≤ 2 then 1 else 0), m, d)

def rdMin : Int := daysFromCivil 1 1 1
def rdMax : Int := daysFromCivil 9999 12 31

def PyDateTime.toRd (t : PyDateTime) : Int := daysFromCivil t.year t.month t.day

/-- Python `datetime.weekday()` (Monday = 0); 1970-01-01 was a Thursday. -/
def pyWeekday (t : PyDateTime) : Int := Int.emod (t.toRd + 3) 7

/-- `t + timedelta(days=n)`; raises `OverflowError` outside `datetime`'s
year range, like Python. -/
def addDaysE (t : PyDateTime) (n : Int) : Except String PyDateTime :=
  let rd := t.toRd + n
  if rdMin ≤ rd ∧ rd ≤ rdMax then
    let c := civilFromDays rd
    .ok { year := c.1, month := c.2.1, day := c.2.2, dayFrac := t.dayFrac }
  else .error "date value out of range"

/-- `datetime(y, m, d)`: `none` models the `ValueError` on invalid dates. -/
def mkDatetime (y m d : Int) : Option PyDateTime :=
  if 1 ≤ y ∧ y ≤ 9999 ∧ 1 ≤ m ∧ m ≤ 12 ∧ 1 ≤ d ∧ d ≤ daysInMonth y m then
    some { year := y, month := m, day := d }
  else none

/-- `t.replace(year=y)`: raises when the day does not exist in the target
year (Feb 29) or the year is out of range. -/
def replaceYearE (t : PyDateTime) (y : Int) : Except String PyDateTime :=
  if 1 ≤ y ∧ y ≤ 9999 then
    if t.day ≤ daysInMonth y t.month then .ok { t with year := y }
    else .error "day is out of range for month"
  else .error "year is out of range"

/-! ### Result records (the dictionaries the tools return) -/

structure IntentResult where
  domain : String
  action : String
  outcome : String
  context : List String
  urgency : String
  confidence : ℚ
  reasoning : String
  deriving Repr, DecidableEq

structure TimeframeResult where
  startDate : Option PyDateTime
  endDate : Option PyDateTime
  /-- the `duration` dictionary: `none` is `{}`, `some n` is `{'days': n}` -/
  duration : Option Int
  milestones : List String
  flexibility : String
  extractedPhrases : List String
  confidence : ℚ
  /-- the `error` key present only in the fallback dictionary -/
  error : Option String := none
  deriving Repr, DecidableEq

structure MetricRecord where
  name : String
  unit : String
  targetValue : ℚ
  currentValue : ℚ
  confidence : String
  reasoning : String
  deriving Repr, DecidableEq

structure MetricsResult where
  metrics : List MetricRecord
  confidence : ℚ
  reasoning : String
  deriving Repr, DecidableEq

structure ConstraintRecord where
  constraint : String
  category : String
  severity : String
  deriving Repr, DecidableEq

structure ConstraintsResult where
  constraints : List ConstraintRecord
  categories : List (String × List String)
  total_count : Nat
  confidence : ℚ
  reasoning : String
  deriving Repr, DecidableEq

structure AnalysisReport where
  original_description : String
  intent : IntentResult
  timeframe : TimeframeResult
  metrics : MetricsResult
  constraints : ConstraintsResult
  overall_confidence : ℚ
  processing_timestamp : PyDateTime
  agent_version : String
  summary : String
  recommendations : List String
  error : Option String := none
  deriving Repr, DecidableEq

/-! ### IntentExtractionTool -/

namespace IntentExtractionTool

/-- The `domain_patterns` table of `run`, in declaration order. -/
def domain_patterns : List (String × List String) := [
  ("fitness", ["workout", "exercise", "run", "gym", "weight", "muscle", "cardio", "marathon", "fitness"]),
  ("learning", ["learn", "study", "course", "skill", "education", "training", "certification", "language"]),
  ("career", ["job", "career", "promotion", "salary", "work", "professional", "business", "interview", "promoted", "developer", "senior"]),
  ("finance", ["money", "save", "budget", "invest", "debt", "financial", "income", "expense"]),
  ("health", ["health", "doctor", "medical", "diet", "nutrition", "sleep", "wellness", "therapy"]),
  ("nutrition", ["eat", "food", "diet", "nutrition", "meal", "calories", "protein", "vegetables"]),
  ("sleep", ["sleep", "rest", "bedtime", "wake", "hours", "insomnia", "tired"]),
  ("habits", ["habit", "routine", "daily", "practice", "consistency", "discipline"]),
  ("social", ["friends", "family", "relationship", "social", "network", "community"]),
  ("projects", ["project", "build", "create", "develop", "complete", "finish", "accomplish"])]

/-- `sum(1 for keyword in keywords if keyword in description)` -/
def domainScore (description : String) (keywords : List String) : Nat :=
  keywords.countP (fun k => pyContains description k)

/-- Python's `max(xs, key=value)` over an association list: keeps the first
maximal entry, replacing the running best only on a strictly greater value. -/
def pyMaxStep (b q : String × Nat) : String × Nat := if q.2 > b.2 then q else b

def pyMaxKey (l : List (String × Nat)) : Option (String × Nat) :=
  match l with
  | [] => none
  | p :: t => some (t.foldl pyMaxStep p)

/-- `_classify_domain`: build `domain_scores` (insertion order, only positive
scores), then `max(..., key=...)`, defaulting to `'projects'`. -/
def classify_domain (description : String) (patterns : List (String × List String)) : String :=
  let domain_scores :=
    (patterns.map (fun p => (p.1, domainScore description p.2))).filter (fun p => 0 < p.2)
  match pyMaxKey domain_scores with
  | some p => p.1
  | none => "projects"

/-- The eight `action_patterns` of `_extract_action`, in order. -/
def action_patterns : List RE := [
  reSeqL [.bnd, .grp 1 (reLits ["learn", "study", "master", "understand"]), .bnd],
  reSeqL [.bnd, .grp 1 (reLits ["run", "exercise", "train", "workout"]), .bnd],
  reSeqL [.bnd, .grp 1 (reLits ["save", "earn", "invest", "budget"]), .bnd],
  reSeqL [.bnd, .grp 1 (reLits ["build", "create", "develop", "make"]), .bnd],
  reSeqL [.bnd, .grp 1 (reLits ["lose", "gain", "improve", "increase", "decrease"]), .bnd],
  reSeqL [.bnd, .grp 1 (reLits ["complete", "finish", "achieve", "accomplish"]), .bnd],
  reSeqL [.bnd, .grp 1 (reLits ["start", "begin", "initiate"]), .bnd],
  reSeqL [.bnd, .grp 1 (reLits ["read", "write", "practice"]), .bnd]]

def fillerWords : List String := ["want", "need", "plan", "hope", "aim", "goal"]

/-- `_extract_action` -/
def extract_action (description : String) : String :=
  match action_patterns.findSome? (fun p => reSearchG1 p (pyToLower description)) with
  | some a => a
  | none =>
    let words := pyWords description
    match words.find? (fun w =>
        !(fillerWords.contains (pyToLower w)) && decide (3 < w.length) &&
        (pyEndsWith (pyToLower w) "ing" || pyEndsWith (pyToLower w) "ed" || pyEndsWith (pyToLower w) "er")) with
    | some w => pyToLower w
    | none => "achieve"

def outcomeStop : RE := reAltsL [.lit ".", .eos, .lit "by", .lit "in", .lit "within"]

/-- The three `outcome_patterns` of `_extract_outcome`, in order. -/
def outcome_patterns : List RE := [
  reSeqL [reLits ["to", "want to", "need to", "plan to", "aim to", "goal is to"],
          ws1, .grp 1 (lazyPlus .anyNN), outcomeStop],
  reSeqL [reLits ["achieve", "accomplish", "complete", "finish", "reach"],
          ws1, .grp 1 (lazyPlus .anyNN), outcomeStop],
  reSeqL [reLits ["become", "get", "obtain", "gain"],
          ws1, .grp 1 (lazyPlus .anyNN), outcomeStop]]

/-- `_extract_outcome` -/
def extract_outcome (description : String) : String :=
  match outcome_patterns.findSome? (fun p => reSearchG1 p (pyToLower description)) with
  | some o => pyStrip o
  | none =>
    let words := pyWords description
    if 3 < words.length then pyJoin " " (words.take (min words.length 8))
    else description

def sentenceStop : RE := reAltsL [.lit ".", .eos]

/-- The motivation and constraint patterns of `_extract_context`, in order. -/
def context_patterns : List RE := [
  reSeqL [reLits ["because", "since", "as", "for", "to help", "in order to"],
          ws1, .grp 1 (lazyPlus .anyNN), sentenceStop],
  reSeqL [reLits ["so that", "so I can", "to be able to"],
          ws1, .grp 1 (lazyPlus .anyNN), sentenceStop],
  reSeqL [reLits ["but", "however", "although", "despite", "even though"],
          ws1, .grp 1 (lazyPlus .anyNN), sentenceStop],
  reSeqL [reLits ["with", "using", "through", "via"],
          ws1, .grp 1 (lazyPlus .anyNN), sentenceStop]]

/-- `_extract_context` -/
def extract_context (description : String) : List String :=
  let context := (context_patterns.map (fun p => findall1 p (pyToLower description))).flatten
  (context.map pyStrip).filter (fun c => c ≠ "")

def high_urgency_words : List String :=
  ["urgent", "asap", "immediately", "critical", "emergency", "deadline", "must"]
def medium_urgency_words : List String :=
  ["soon", "quickly", "important", "priority", "need to", "should"]
def low_urgency_words : List String :=
  ["eventually", "someday", "when possible", "would like", "hope to"]

def urgencyReHigh : RE := reSeqL [.bnd, .grp 1 (reLits ["today", "tomorrow", "this week", "next week"]), .bnd]
def urgencyReMed : RE := reSeqL [.bnd, .grp 1 (reLits ["this month", "next month", "soon"]), .bnd]
def urgencyReLow : RE := reSeqL [.bnd, .grp 1 (reLits ["this year", "next year", "someday"]), .bnd]

/-- `_determine_urgency` -/
def determine_urgency (description : String) : String :=
  let lower := pyToLower description
  if containsAny lower high_urgency_words then "high"
  else if containsAny lower medium_urgency_words then "medium"
  else if containsAny lower low_urgency_words then "low"
  else if reSearchB urgencyReHigh lower then "high"
  else if reSearchB urgencyReMed lower then "medium"
  else if reSearchB urgencyReLow lower then "low"
  else "medium"

def vagueWords : List String := ["something", "stuff", "things", "whatever"]

/-- `_calculate_confidence`: base 0.5, the sequential boosts/penalties
written as one sum, clamped to [0,1] exactly as `max(0.0, min(1.0, ...))`. -/
def calculate_confidence (description domain action outcome : String) : ℚ :=
  max 0 (min 1 (
    1/2
    + (if 5 ≤ (pyWords description).length then 1/10 else 0)
    + (if 10 ≤ (pyWords description).length then 1/10 else 0)
    + (if action ≠ "achieve" then 1/10 else 0)
    + (if 10 < outcome.length then 1/10 else 0)
    + (if domain ≠ "projects" then 1/10 else 0)
    - (if (pyWords description).length < 3 then 1/5 else 0)
    - (if containsAny (pyToLower description) vagueWords then 3/10 else 0)))

/-- The `try` body of `IntentExtractionTool.run`; all its operations are
total, so the Python `except` branch is unreachable for string inputs. -/
def runBody (description : String) : IntentResult :=
  let domain := classify_domain (pyToLower description) domain_patterns
  let action := extract_action description
  let outcome := extract_outcome description
  let context := extract_context description
  let urgency := determine_urgency description
  let confidence := calculate_confidence description domain action outcome
  { domain := domain, action := action, outcome := outcome, context := context,
    urgency := urgency, confidence := confidence,
    reasoning := "Classified as " ++ domain ++ " based on keywords. Action: " ++ action
      ++ ", Outcome: " ++ outcome }

/-- The `except` branch of `IntentExtractionTool.run`, for error message `e`. -/
def fallback (e : String) : IntentResult :=
  { domain := "projects", action := "achieve", outcome := "goal completion",
    context := [], urgency := "medium", confidence := 3/10,
    reasoning := "Fallback classification due to error: " ++ e }

/-- `IntentExtractionTool.run` -/
def run (description : String) : IntentResult := runBody description

end IntentExtractionTool

/-! ### TimeframeParsingTool -/

namespace TimeframeParsingTool

def monthLits : List String :=
  ["january", "february", "march", "april", "may", "june", "july", "august",
   "september", "october", "november", "december"]

def dwmyS : RE := reAltsL [wordS "day", wordS "week", wordS "month", wordS "year"]

/-- The eight `time_patterns` of `_extract_time_phrases`, in order.
Patterns 1-3 have one capturing group; patterns 4-8 have none.
Note `\d{4}?` in pattern 4 is a lazy exactly-4 repetition, i.e. a required
4-digit year, exactly as Python parses it. -/
def phrase1 : RE := reSeqL [.bnd, reLits ["by", "before", "until", "deadline"],
  ws1, .grp 1 (lazyPlus .notDot), reAltsL [.lit ".", .eos, .lit ","]]
def phrase2 : RE := reSeqL [.bnd, reLits ["in", "within", "over", "during"],
  ws1, .grp 1 (reSeqL [digits1, ws1, dwmyS])]
def phrase3 : RE := reSeqL [.bnd, reLits ["next", "this", "coming"],
  ws1, .grp 1 (reLits ["week", "month", "year", "summer", "winter", "spring", "fall"])]
def phrase4 : RE := reSeqL [.bnd, reLits monthLits, ws1, digitsR 1 2,
  .alt (reLits ["st", "nd", "rd", "th"]) .eps, optChar ',', ws0, digitsR 4 4]
def phrase5 : RE := reSeqL [.bnd, digitsR 1 2, .lit "/", digitsR 1 2, .lit "/", digitsR 2 4, .bnd]
def phrase6 : RE := reSeqL [.bnd, digitsR 1 2, .lit "-", digitsR 1 2, .lit "-", digitsR 2 4, .bnd]
def phrase7 : RE := reSeqL [.bnd, reLits ["today", "tomorrow", "yesterday"], .bnd]
def phrase8 : RE := reSeqL [.bnd, reLits ["asap", "immediately", "soon", "eventually"], .bnd]

/-- `_extract_time_phrases` -/
def extract_time_phrases (description : String) : List String :=
  let lower := pyToLower description
  let phrases :=
    findall1 phrase1 lower ++ findall1 phrase2 lower ++ findall1 phrase3 lower ++
    findallWhole phrase4 lower ++ findallWhole phrase5 lower ++ findallWhole phrase6 lower ++
    findallWhole phrase7 lower ++ findallWhole phrase8 lower
  (phrases.map pyStrip).filter (fun p => p ≠ "")

/-- The three `date_patterns` of `_parse_dates`. -/
def dateSlash : RE := reSeqL [.bnd,
  .grp 1 (reSeqL [digitsR 1 2, .lit "/", digitsR 1 2, .lit "/", digitsR 2 4]), .bnd]
def dateDash : RE := reSeqL [.bnd,
  .grp 1 (reSeqL [digitsR 1 2, .lit "-", digitsR 1 2, .lit "-", digitsR 2 4]), .bnd]
def dateMonthName : RE := reSeqL [.bnd, .grp 1 (reLits monthLits), ws1,
  .grp 2 (digitsR 1 2), .alt (reLits ["st", "nd", "rd", "th"]) .eps, optChar ',', ws0,
  .alt (.grp 3 (digitsR 4 4)) .eps]

/-- One raw match of the explicit-date loop in `_parse_dates`: a plain string
from the numeric patterns or a 3-tuple from the month-name pattern. -/
inductive DateMatch where
  | numeric (s : String)
  | monthName (month day year : String)
  deriving Repr, DecidableEq

/-- All raw date matches, pattern by pattern in the source's order. -/
def dateMatchList (description : String) : List DateMatch :=
  let lower := pyToLower description
  (findall1 dateSlash lower).map DateMatch.numeric ++
  (findall1 dateDash lower).map DateMatch.numeric ++
  (findall3 dateMonthName lower).map (fun t => DateMatch.monthName t.1 t.2.1 t.2.2)

/-- `_month_name_to_number` -/
def month_name_to_number (m : String) : Int :=
  let months : List (String × Int) :=
    [("january", 1), ("february", 2), ("march", 3), ("april", 4),
     ("may", 5), ("june", 6), ("july", 7), ("august", 8),
     ("september", 9), ("october", 10), ("november", 11), ("december", 12)]
  match months.find? (fun p => p.1 = pyToLower m) with
  | some p => p.2
  | none => 1

/-- One iteration of the explicit-date parsing loop: `none` models the
`except (ValueError, IndexError): continue` branch. -/
def parseDateMatch (now : PyDateTime) (m : DateMatch) : Option PyDateTime :=
  match m with
  | .monthName mo d y =>
      let year : Int := if y ≠ "" then (parseNat y : Int) else now.year
      mkDatetime year (month_name_to_number mo) (parseNat d : Int)
  | .numeric ds =>
      let parts := if pyContains ds "/" then pySplitOn ds (fun c => c = '/')
                   else pySplitOn ds (fun c => c = '-')
      match parts with
      | [mo, d, y] =>
          let yr : Int := (parseNat y : Int)
          let yr := if yr < 100 then (if yr < 50 then yr + 2000 else yr + 1900) else yr
          mkDatetime yr (parseNat mo : Int) (parseNat d : Int)
      | _ => none

def patToday : RE := reSeqL [.bnd, .lit "today", .bnd]
def patTomorrow : RE := reSeqL [.bnd, .lit "tomorrow", .bnd]
def patNextWeek : RE := reSeqL [.bnd, .lit "next week", .bnd]
def patThisWeek : RE := reSeqL [.bnd, .lit "this week", .bnd]
def patNextMonth : RE := reSeqL [.bnd, .lit "next month", .bnd]
def patThisMonth : RE := reSeqL [.bnd, .lit "this month", .bnd]
def patNextYear : RE := reSeqL [.bnd, .lit "next year", .bnd]
def patThisYear : RE := reSeqL [.bnd, .lit "this year", .bnd]
def patInDays : RE := reSeqL [.bnd, .lit "in", ws1, .grp 1 digits1, ws1, wordS "day", .bnd]
def patInWeeks : RE := reSeqL [.bnd, .lit "in", ws1, .grp 1 digits1, ws1, wordS "week", .bnd]
def patInMonths : RE := reSeqL [.bnd, .lit "in", ws1, .grp 1 digits1, ws1, wordS "month", .bnd]

/-- `_parse_relative_dates`.  The Python dict literal evaluates every value
eagerly before any pattern is tried, so a raising value (`replace(year=...)`
on Feb 29, or date overflow) aborts the whole call; the `Except` bind chain
mirrors that. -/
def parse_relative_dates (now : PyDateTime) (description : String) :
    Except String (Option PyDateTime) := do
  let tomorrow ← addDaysE now 1
  let nextWeek ← addDaysE now 7
  let thisWeek ← addDaysE now (7 - pyWeekday now)
  let nextMonth ← addDaysE now 30
  let thisMonth : PyDateTime := { now with day := 28 }
  let nextYear ← replaceYearE now (now.year + 1)
  let thisYear : PyDateTime := { now with month := 12, day := 31 }
  let lower := pyToLower description
  if reSearchB patToday lower then return some now
  else if reSearchB patTomorrow lower then return some tomorrow
  else if reSearchB patNextWeek lower then return some nextWeek
  else if reSearchB patThisWeek lower then return some thisWeek
  else if reSearchB patNextMonth lower then return some nextMonth
  else if reSearchB patThisMonth lower then return some thisMonth
  else if reSearchB patNextYear lower then return some nextYear
  else if reSearchB patThisYear lower then return some thisYear
  else
    match reSearchG1 patInDays lower with
    | some n => do return some (← addDaysE now (parseNat n : Int))
    | none =>
      match reSearchG1 patInWeeks lower with
      | some n => do return some (← addDaysE now (7 * (parseNat n : Int)))
      | none =>
        match reSearchG1 patInMonths lower with
        | some n => do return some (← addDaysE now (30 * (parseNat n : Int)))
        | none => return none

/-- The explicit-date scan of `_parse_dates`: iterate the matches in pattern
order, a later successful parse overwriting an earlier one. -/
def explicitEndDate (now : PyDateTime) (description : String) : Option PyDateTime :=
  (dateMatchList description).foldl
    (fun acc m => match parseDateMatch now m with | some d => some d | none => acc) none

/-- `_parse_dates`: the explicit-date scan, then relative-date fallback,
then `start = now` iff an end date was found. -/
def parse_dates (now : PyDateTime) (description : String) :
    Except String (Option PyDateTime × Option PyDateTime) :=
  match explicitEndDate now description with
  | some d => .ok (some now, some d)
  | none =>
    match parse_relative_dates now description with
    | .error e => .error e
    | .ok ed => .ok ((if ed.isSome then some now else none), ed)

def patDurHours : RE := reSeqL [.grp 1 digits1, ws0, wordS "hour"]
def patDurDays : RE := reSeqL [.grp 1 digits1, ws0, wordS "day"]
def patDurWeeks : RE := reSeqL [.grp 1 digits1, ws0, wordS "week"]
def patDurMonths : RE := reSeqL [.grp 1 digits1, ws0, wordS "month"]
def patDurYears : RE := reSeqL [.grp 1 digits1, ws0, wordS "year"]

/-- `int(matches[0])` for the first `findall` result, if any. -/
def firstNum (r : RE) (lower : String) : Option Nat :=
  (findall1 r lower).head?.map parseNat

/-- `_extract_duration`: the five unit scans, then normalization to whole
days (`{}` becomes `none`, `{'days': n}` becomes `some n`). -/
def extract_duration (description : String) : Option Int :=
  let lower := pyToLower description
  let hours := firstNum patDurHours lower
  let days := firstNum patDurDays lower
  let weeks := firstNum patDurWeeks lower
  let months := firstNum patDurMonths lower
  let years := firstNum patDurYears lower
  if hours.isSome || days.isSome || weeks.isSome || months.isSome || years.isSome then
    let total : ℚ := (days.getD 0 : ℚ) + (weeks.getD 0 : ℚ) * 7 + (months.getD 0 : ℚ) * 30
      + (years.getD 0 : ℚ) * 365 + (hours.getD 0 : ℚ) / 24
    if 0 < total then some ⌊total⌋ else none
  else none

def mileStop : RE := reAltsL [.lit ".", .eos, .lit ","]

/-- The three `milestone_patterns`, in order. -/
def milestone1 : RE := reSeqL [reLits ["milestone", "checkpoint", "phase", "step"],
  ws0, .rep .digit 0 none false, optChar ':', ws0, .grp 1 (lazyPlus .notDot), mileStop]
def milestone2 : RE := reSeqL [reLits ["first", "second", "third", "then", "next", "finally"],
  ws1, .grp 1 (lazyPlus .notDot), mileStop]
def milestone3 : RE := reSeqL [
  .alt (reSeqL [.lit "by", ws1, .rep .word 1 none false, ws1, digits1])
       (reSeqL [.lit "in", ws1, digits1, ws1, .rep .word 1 none false]),
  ws1, .grp 1 (lazyPlus .notDot), mileStop]

/-- `_extract_milestones` -/
def extract_milestones (description : String) : List String :=
  let lower := pyToLower description
  let milestones :=
    ((findall1 milestone1 lower).map pyStrip).filter (fun m => m ≠ "") ++
    ((findall1 milestone2 lower).map pyStrip).filter (fun m => m ≠ "") ++
    ((findall1 milestone3 lower).map pyStrip).filter (fun m => m ≠ "")
  milestones.take 5

def fixed_indicators : List String := ["deadline", "must", "required", "due", "exactly", "precisely"]
def flexible_indicators : List String :=
  ["around", "approximately", "roughly", "about", "flexible", "when possible"]
def very_flexible_indicators : List String :=
  ["eventually", "someday", "whenever", "no rush", "no hurry"]

/-- `_determine_flexibility` -/
def determine_flexibility (description : String) : String :=
  let lower := pyToLower description
  if containsAny lower very_flexible_indicators then "very_flexible"
  else if containsAny lower flexible_indicators then "flexible"
  else if containsAny lower fixed_indicators then "fixed"
  else "flexible"

/-- `_calculate_timeframe_confidence` -/
def calculate_timeframe_confidence (phrases : List String)
    (start_date end_date : Option PyDateTime) : ℚ :=
  min 1 (3/10
    + (if phrases ≠ [] then 1/5 else 0)
    + (if 1 < phrases.length then 1/10 else 0)
    + (if start_date.isSome then 1/5 else 0)
    + (if end_date.isSome then 1/5 else 0))

/-- The `try` body of `TimeframeParsingTool.run`; an exception escaping
`_parse_dates` (via `_parse_relative_dates`) is the only failure source. -/
def runBody (now : PyDateTime) (description : String) : Except String TimeframeResult :=
  let phrases := extract_time_phrases description
  match parse_dates now description with
  | .error e => .error e
  | .ok (sd, ed) =>
    .ok { startDate := sd, endDate := ed,
          duration := extract_duration description,
          milestones := extract_milestones description,
          flexibility := determine_flexibility description,
          extractedPhrases := phrases,
          confidence := calculate_timeframe_confidence phrases sd ed,
          error := none }

/-- The `except` branch of `TimeframeParsingTool.run`. -/
def fallback (e : String) : TimeframeResult :=
  { startDate := none, endDate := none, duration := some 30, milestones := [],
    flexibility := "flexible", extractedPhrases := [], confidence := 1/5,
    error := some e }

/-- `TimeframeParsingTool.run` -/
def run (now : PyDateTime) (description : String) : TimeframeResult :=
  match runBody now description with
  | .ok r => r
  | .error e => fallback e

end TimeframeParsingTool

/-! ### MetricsIdentificationTool -/

namespace MetricsIdentificationTool

/-- `(\d+(?:\.\d+)?)` as group 1. -/
def numG1 : RE := .grp 1 (.seq digits1 (.alt (.seq (.lit ".") digits1) .eps))

/-- The eight two-group `numeric_patterns` (pattern, metric_type, default
unit), in the source's order; the percentage pattern is handled separately
because it has a single group. -/
def numeric2 : List (RE × String × String) := [
  (reSeqL [numG1, ws0, .grp 2 (reAltsL [wordS "pound", wordS "lb", .lit "kg", wordS "kilogram"])],
    "weight", "lbs"),
  (reSeqL [numG1, ws0, .grp 2 (reAltsL [wordS "mile", .lit "km", wordS "kilometer"])],
    "distance", "miles"),
  (reSeqL [numG1, ws0, .grp 2 (reAltsL [wordS "hour", wordS "hr"])], "time", "hours"),
  (reSeqL [numG1, ws0, .grp 2 (reAltsL [wordS "minute", wordS "min"])], "time", "minutes"),
  (reSeqL [numG1, ws0, .grp 2 (reAltsL [wordS "dollar", .lit "$", .lit "USD"])],
    "money", "dollars"),
  (reSeqL [numG1, ws0, .grp 2 (reAltsL [wordS "time", wordS "rep", wordS "repetition"])],
    "count", "times"),
  (reSeqL [numG1, ws0, .grp 2 (reAltsL [wordS "page", wordS "chapter", wordS "book"])],
    "reading", "pages"),
  (reSeqL [numG1, ws0, .grp 2 (reAltsL [wordS "word", wordS "character"])],
    "writing", "words")]

/-- `(\d+(?:\.\d+)?)\s*(?:%|percent)` (one group). -/
def percentPat : RE := reSeqL [numG1, ws0, .alt (.lit "%") (.lit "percent")]

def mkExplicit (metricType unitFound : String) (value : ℚ) : MetricRecord :=
  { name := metricType ++ "_target", unit := unitFound, targetValue := value,
    currentValue := 0, confidence := "high",
    reasoning := "Found explicit numeric value: " ++ toString value ++ " " ++ unitFound }

/-- The explicit-numeric scan of `run`.  For a two-group pattern, Python's
`match` is a tuple, so `match[0]`/`match[1]` are the number and unit strings.
For the one-group percentage pattern `match` is the number STRING, so
`match[0]` is its first character and `match[1] if len(match) > 1 else unit`
is its second character (or the default unit for a one-digit number) — this
quirk of the source is reproduced exactly. -/
def explicitMetrics (description : String) : List MetricRecord :=
  let lower := pyToLower description
  let scan2 := fun (pats : List (RE × String × String)) =>
    (pats.map (fun pat =>
      (findall2 pat.1 lower).map (fun m => mkExplicit pat.2.1 m.2 (parseFloatQ m.1)))).flatten
  let percent := (findall1 percentPat lower).map (fun m =>
    let value := parseFloatQ (String.mk (m.data.take 1))
    let unitFound := if 1 < m.length then String.mk ((m.data.drop 1).take 1) else "percent"
    mkExplicit "percentage" unitFound value)
  scan2 (numeric2.take 5) ++ percent ++ scan2 (numeric2.drop 5)

/-- `_identify_implicit_metrics` -/
def identify_implicit_metrics (description : String) : List MetricRecord :=
  let lower := pyToLower description
  (if containsAny lower ["workout", "exercise", "fitness", "gym", "working", "shape"] then
    [{ name := "workout_sessions", unit := "sessions", targetValue := 12, currentValue := 0,
       confidence := "medium",
       reasoning := "Fitness goal typically measured by workout frequency" }] else []) ++
  (if containsAny lower ["learn", "study", "course", "skill"] then
    [{ name := "study_hours", unit := "hours", targetValue := 20, currentValue := 0,
       confidence := "medium",
       reasoning := "Learning goals typically measured by time invested" }] else []) ++
  (if containsAny lower ["read", "book", "chapter"] then
    [{ name := "books_read", unit := "books", targetValue := 1, currentValue := 0,
       confidence := "medium",
       reasoning := "Reading goals typically measured by books completed" }] else []) ++
  (if containsAny lower ["daily", "habit", "routine", "every day"] then
    [{ name := "consecutive_days", unit := "days", targetValue := 30, currentValue := 0,
       confidence := "medium",
       reasoning := "Habit goals typically measured by consistency" }] else []) ++
  (if containsAny lower ["project", "build", "create", "complete"] then
    [{ name := "completion_percentage", unit := "percent", targetValue := 100, currentValue := 0,
       confidence := "medium",
       reasoning := "Project goals typically measured by completion percentage" }] else [])

/-- `_suggest_default_metrics` -/
def suggest_default_metrics (_description : String) : List MetricRecord :=
  [{ name := "progress_score", unit := "points", targetValue := 100, currentValue := 0,
     confidence := "low",
     reasoning := "Generic progress metric for goals without explicit measurements" }]

def confidence_scores (c : String) : ℚ :=
  if c = "high" then 9/10 else if c = "medium" then 3/5 else if c = "low" then 3/10 else 3/10

/-- `_calculate_metrics_confidence` -/
def calculate_metrics_confidence (metrics : List MetricRecord) : ℚ :=
  if metrics = [] then 0
  else min 1 ((metrics.map (fun m => confidence_scores m.confidence)).sum / (metrics.length : ℚ))

/-- The `metrics` list of `run` before the final `[:5]` truncation:
explicit numeric metrics, then implicit ones, with the generic default when
both scans come up empty. -/
def metricsList (description : String) : List MetricRecord :=
  if explicitMetrics description ++ identify_implicit_metrics description = [] then
    suggest_default_metrics description
  else explicitMetrics description ++ identify_implicit_metrics description

/-- The `try` body of `MetricsIdentificationTool.run`; all operations are
total.  Note that the stored list is truncated to 5 but the confidence is
computed over the untruncated list, as in the source. -/
def runBody (description : String) : MetricsResult :=
  { metrics := (metricsList description).take 5,
    confidence := calculate_metrics_confidence (metricsList description),
    reasoning := "Identified " ++ toString (metricsList description).length
      ++ " measurable metrics from the description" }

/-- The `except` branch of `MetricsIdentificationTool.run`. -/
def fallback (e : String) : MetricsResult :=
  { metrics := [
      { name := "completion_status", unit := "percent", targetValue := 100,
        currentValue := 0, confidence := "low",
        reasoning := "Fallback metric due to error: " ++ e }],
    confidence := 1/5,
    reasoning := "Used fallback metrics due to processing error" }

/-- `MetricsIdentificationTool.run` -/
def run (description : String) : MetricsResult := runBody description

end MetricsIdentificationTool

/-! ### ConstraintExtractionTool -/

namespace ConstraintExtractionTool

/-- A single apostrophe character, used inside the source's pattern and
keyword strings. -/
def apos : String := String.mk [Char.ofNat 39]

/-- The five `time_constraint_patterns`, in order. -/
def time1 : RE := reSeqL [reLits ["only", "just"], ws1,
  .grp 1 (reSeqL [digits1, ws1, reAltsL [wordS "hour", wordS "minute", wordS "day"],
                  ws1, reLits ["per", "each", "a"], ws1, .rep .word 1 none false])]
def time2 : RE := reSeqL [reLits ["limited", "restricted"], ws1, reLits ["to", "by"], ws1,
  .grp 1 (reSeqL [.rep .notDot 1 none false, .lit "time", .rep .notDot 0 none false])]
def time3 : RE := reSeqL [reLits ["busy", "occupied", "unavailable"], ws1,
  .grp 1 (.rep .notDot 1 none false)]
def time4 : RE := reSeqL [reLits ["deadline", "due"], ws1, .grp 1 (.rep .notDot 1 none false)]
def time5 : RE := .grp 1 (reSeqL [digits1, ws1, wordS "hour", ws1, .lit "per", ws1,
  .rep .word 1 none false])

/-- `_extract_time_constraints` -/
def extract_time_constraints (description : String) : List String :=
  let lower := pyToLower description
  ([time1, time2, time3, time4, time5].map (fun p =>
    ((findall1 p lower).map pyStrip).filter (fun m => m ≠ ""))).flatten

/-- The four `resource_constraint_patterns`, in order (the last has two
groups, so its `findall` yields tuples that the source joins with a space,
without stripping or filtering). -/
def res1 : RE := reSeqL [reLits ["budget", "money", "cost"], ws1,
  reLits ["of", "is", "limited to"], ws1, .grp 1 (.rep .notDot 1 none false)]
def res2 : RE := reSeqL [reLits ["no", "without", "lack of", "limited"], ws1,
  .grp 1 (reLits ["money", "budget", "funds", "equipment", "tools", "resources"])]
def res3 : RE := reSeqL [reAltsL [.lit ("can" ++ apos ++ "t afford"), .lit "too expensive", .lit "costly"],
  ws1, .grp 1 (.rep .notDot 1 none false)]
def res4 : RE := reSeqL [reLits ["need", "require", "must have"], ws1,
  .grp 1 (reLits ["equipment", "tools", "resources", "materials"]), ws1,
  .grp 2 (.rep .notDot 1 none false)]

/-- `_extract_resource_constraints` -/
def extract_resource_constraints (description : String) : List String :=
  let lower := pyToLower description
  ([res1, res2, res3].map (fun p =>
    ((findall1 p lower).map pyStrip).filter (fun m => m ≠ ""))).flatten ++
  (findall2 res4 lower).map (fun m => m.1 ++ " " ++ m.2)

/-- The four `skill_constraint_patterns`, in order (the third has two
groups and is tuple-joined). -/
def skill1 : RE := reSeqL [reAltsL [.lit ("don" ++ apos ++ "t know"), .lit "never",
  .lit "no experience", .lit "beginner", .lit "new to"], ws1, .grp 1 (.rep .notDot 1 none false)]
def skill2 : RE := reSeqL [reLits ["need to learn", "must learn", "have to study"], ws1,
  .grp 1 (.rep .notDot 1 none false)]
def skill3 : RE := reSeqL [reLits ["lack", "missing", "without"], ws1,
  .grp 1 (reAltsL [wordS "skill", .lit "knowledge", .lit "experience"]), ws1,
  .grp 2 (.rep .notDot 0 none false)]
def skill4 : RE := reSeqL [reLits ["difficult", "hard", "challenging"], ws1,
  reLits ["because", "since"], ws1, .grp 1 (.rep .notDot 1 none false)]

/-- `_extract_skill_constraints` -/
def extract_skill_constraints (description : String) : List String :=
  let lower := pyToLower description
  ([skill1, skill2].map (fun p =>
    ((findall1 p lower).map pyStrip).filter (fun m => m ≠ ""))).flatten ++
  (findall2 skill3 lower).map (fun m => m.1 ++ " " ++ m.2) ++
  ((findall1 skill4 lower).map pyStrip).filter (fun m => m ≠ "")

/-- The four `external_constraint_patterns`, in order. -/
def ext1 : RE := reSeqL [reLits ["depends on", "waiting for", "need approval from"], ws1,
  .grp 1 (.rep .notDot 1 none false)]
def ext2 : RE := reSeqL [reLits ["weather", "season", "location"], ws1,
  reLits ["dependent", "specific", "limited"], ws1, .grp 1 (.rep .notDot 0 none false)]
def ext3 : RE := reSeqL [reLits ["others", "family", "work", "job"], ws1,
  reAltsL [wordS "prevent", wordS "limit", wordS "restrict"], ws1,
  .grp 1 (.rep .notDot 0 none false)]
def ext4 : RE := reSeqL [reLits ["availability", "schedule", "calendar"], ws1,
  reAltsL [wordS "conflict", wordS "issue"], ws1, .grp 1 (.rep .notDot 0 none false)]

/-- `_extract_external_constraints` -/
def extract_external_constraints (description : String) : List String :=
  let lower := pyToLower description
  ([ext1, ext2, ext3, ext4].map (fun p =>
    ((findall1 p lower).map pyStrip).filter (fun m => m ≠ ""))).flatten

/-- The four `personal_constraint_patterns`, in order. -/
def pers1 : RE := reSeqL [reLits ["afraid", "scared", "worried", "anxious"], ws1,
  reLits ["of", "about", "that"], ws1, .grp 1 (.rep .notDot 1 none false)]
def pers2 : RE := reSeqL [reLits ["health", "medical", "physical"], ws1,
  reAltsL [wordS "issue", wordS "problem", wordS "limitation"], ws1,
  .grp 1 (.rep .notDot 0 none false)]
def pers3 : RE := reSeqL [reLits ["motivation", "discipline", "willpower"], ws1,
  reAltsL [wordS "issue", wordS "problem", .lit "lack"], ws1,
  .grp 1 (.rep .notDot 0 none false)]
def pers4 : RE := reSeqL [reLits ["procrastination", "lazy", "unmotivated"], ws1,
  .grp 1 (.rep .notDot 0 none false)]

/-- `_extract_personal_constraints` -/
def extract_personal_constraints (description : String) : List String :=
  let lower := pyToLower description
  ([pers1, pers2, pers3, pers4].map (fun p =>
    ((findall1 p lower).map pyStrip).filter (fun m => m ≠ ""))).flatten

def high_severity_words : List String :=
  ["impossible", "never", "can" ++ apos ++ "t", "unable", "critical", "major"]
def medium_severity_words : List String :=
  ["difficult", "challenging", "limited", "restricted", "problem"]

/-- `_assess_constraint_severity` (its `description` argument is unused in
the source too). -/
def assess_constraint_severity (constraint : String) (_description : String) : String :=
  let lower := pyToLower constraint
  if containsAny lower high_severity_words then "high"
  else if containsAny lower medium_severity_words then "medium"
  else "low"

/-- `_calculate_constraint_confidence` -/
def calculate_constraint_confidence (constraints : List ConstraintRecord) : ℚ :=
  if constraints = [] then 3/10
  else min 1 (1/2 + min (2/5) ((constraints.length : ℚ) * (1/10)))

/-- The `constraints` dictionary of category lists built first in `run`. -/
def categoriesOf (description : String) : List (String × List String) := [
  ("time_constraints", extract_time_constraints description),
  ("resource_constraints", extract_resource_constraints description),
  ("skill_constraints", extract_skill_constraints description),
  ("external_constraints", extract_external_constraints description),
  ("personal_constraints", extract_personal_constraints description)]

/-- The flattened `all_constraints` list of `run`, each entry annotated with
its source category and severity. -/
def allConstraints (description : String) : List ConstraintRecord :=
  ((categoriesOf description).map (fun c =>
    c.2.map (fun x =>
      ({ constraint := x, category := c.1,
         severity := assess_constraint_severity x description } : ConstraintRecord)))).flatten

/-- The `try` body of `ConstraintExtractionTool.run`: the result record whose
`total_count` is the flattened list's length. -/
def runBody (description : String) : ConstraintsResult :=
  { constraints := allConstraints description,
    categories := categoriesOf description,
    total_count := (allConstraints description).length,
    confidence := calculate_constraint_confidence (allConstraints description),
    reasoning := "Identified " ++ toString (allConstraints description).length
      ++ " constraints across "
      ++ toString (((categoriesOf description).filter (fun c => c.2 ≠ [])).length)
      ++ " categories" }

/-- The `except` branch of `ConstraintExtractionTool.run`. -/
def fallback (e : String) : ConstraintsResult :=
  { constraints := [], categories := [], total_count := 0, confidence := 1/5,
    reasoning := "Error extracting constraints: " ++ e }

/-- `ConstraintExtractionTool.run` -/
def run (description : String) : ConstraintsResult := runBody description

end ConstraintExtractionTool

/-! ### NLPAgent (analysis aggregator) -/

namespace NLPAgent

/-- A single apostrophe character (used in the summary template). -/
def apos : String := String.mk [Char.ofNat 39]

def pad2 (n : Int) : String :=
  if 0 ≤ n ∧ n < 10 then "0" ++ toString n else toString n

/-- Abstraction of `datetime.isoformat()` (its exact fractional-second
rendering is irrelevant to every property proved here). -/
def isoDate (t : PyDateTime) : String :=
  toString t.year ++ "-" ++ pad2 t.month ++ "-" ++ pad2 t.day ++ "T" ++ toString t.dayFrac

/-- `_calculate_overall_confidence`: unweighted mean of the four
sub-confidences (each result dictionary always carries a `confidence` key). -/
def calculate_overall_confidence (intent timeframe metrics constraints : ℚ) : ℚ :=
  (intent + timeframe + metrics + constraints) / 4

/-- `_generate_analysis_summary` -/
def generate_analysis_summary (intent : IntentResult) (timeframe : TimeframeResult)
    (metrics : MetricsResult) (overall : ℚ) : String :=
  let parts := ["Goal classified as " ++ intent.domain ++ " domain with action "
      ++ apos ++ intent.action ++ apos]
  let parts := parts ++
    (match timeframe.endDate with
     | some d => ["Target completion by " ++ isoDate d]
     | none =>
       match timeframe.duration with
       | some n => ["Estimated duration: " ++ toString n ++ " days"]
       | none => [])
  let parts := parts ++
    (if 0 < metrics.metrics.length then
      ["Identified " ++ toString metrics.metrics.length ++ " measurable metrics"] else [])
  let level := if 7/10 < overall then "high" else if 2/5 < overall then "medium" else "low"
  let parts := parts ++ ["Overall analysis confidence: " ++ level]
  pyJoin ". " parts ++ "."

/-- `_generate_recommendations`: threshold checks, the zero-constraint check
and the domain-specific suggestion, in the source's append order, capped
at 5. -/
def generate_recommendations (intentConf timeframeConf metricsConf : ℚ)
    (constraintCount : Nat) (domain : String) : List String :=
  ((if intentConf < 3/5 then
      ["Consider providing more specific details about what you want to achieve"] else []) ++
   (if timeframeConf < 3/5 then
      ["Add specific deadlines or timeframes to make the goal more time-bound"] else []) ++
   (if metricsConf < 3/5 then
      ["Include measurable outcomes or success criteria"] else []) ++
   (if constraintCount = 0 then
      ["Consider potential obstacles or constraints that might affect your goal"] else []) ++
   (if domain = "fitness" then
      ["Consider tracking specific metrics like workout frequency or performance improvements"]
    else if domain = "learning" then
      ["Break down the learning goal into specific skills or knowledge areas"]
    else if domain = "career" then
      ["Define specific career milestones or skill developments"]
    else [])).take 5

/-- `process_goal_description` (its `try` body; the four tool `run`s and the
merge step are total, so the outer `except` is unreachable). -/
def process_goal_description (now : PyDateTime) (description : String) : AnalysisReport :=
  let intent_analysis := IntentExtractionTool.run description
  let timeframe_analysis := TimeframeParsingTool.run now description
  let metrics_analysis := MetricsIdentificationTool.run description
  let constraints_analysis := ConstraintExtractionTool.run description
  let overall := calculate_overall_confidence intent_analysis.confidence
    timeframe_analysis.confidence metrics_analysis.confidence constraints_analysis.confidence
  { original_description := description,
    intent := intent_analysis,
    timeframe := timeframe_analysis,
    metrics := metrics_analysis,
    constraints := constraints_analysis,
    overall_confidence := overall,
    processing_timestamp := now,
    agent_version := "1.0.0",
    summary := generate_analysis_summary intent_analysis timeframe_analysis metrics_analysis overall,
    recommendations := generate_recommendations intent_analysis.confidence
      timeframe_analysis.confidence metrics_analysis.confidence
      constraints_analysis.total_count intent_analysis.domain,
    error := none }

/-- `_create_fallback_analysis`, transcribed field by field from the source
(note its intent confidence is the literal `0.2`). -/
def create_fallback_analysis (now : PyDateTime) (description error : String) : AnalysisReport :=
  { original_description := description,
    intent :=
      { domain := "projects", action := "achieve", outcome := "goal completion",
        context := [], urgency := "medium", confidence := 1/5,
        reasoning := "Fallback analysis due to error: " ++ error },
    timeframe :=
      { startDate := none, endDate := none, duration := some 30, milestones := [],
        flexibility := "flexible", extractedPhrases := [], confidence := 1/5, error := none },
    metrics :=
      { metrics := [
          { name := "completion_status", unit := "percent", targetValue := 100,
            currentValue := 0, confidence := "low", reasoning := "Fallback metric" }],
        confidence := 1/5,
        reasoning := "Fallback metrics due to processing error" },
    constraints :=
      { constraints := [], categories := [], total_count := 0, confidence := 1/5,
        reasoning := "No constraints identified due to processing error" },
    overall_confidence := 1/5,
    processing_timestamp := now,
    agent_version := "1.0.0",
    summary := "Analysis failed due to technical error. Manual review recommended.",
    recommendations := ["Retry analysis with simplified description",
                        "Consider manual goal creation"],
    error := some error }

end NLPAgent

/-! ### Spec-side reference definitions

These two definitions transcribe the SPEC's wording (not the code) and are
compared with the embedded code in the refinement-style claims C4 and C5. -/

/-- Maximum of the scores in an association list (0 for the empty list). -/
def maxScore (l : List (String × Nat)) : Nat := l.foldr (fun p a => max p.2 a) 0

/-- The first entry carrying score `m`, in declaration order. -/
def firstWithScore (m : Nat) (l : List (String × Nat)) : Option (String × Nat) :=
  l.find? (fun p => p.2 == m)

/-- Spec wording of the domain choice: the domain whose keyword set has the
maximum number of keywords occurring as substrings of the lower-cased
description, ties broken by first-declared-domain order; `"projects"` when
no domain scores above 0. -/
def specDomainChoice (description : String) : String :=
  let lower := pyToLower description
  let scores := IntentExtractionTool.domain_patterns.map
    (fun p => (p.1, IntentExtractionTool.domainScore lower p.2))
  if maxScore scores = 0 then "projects"
  else
    match firstWithScore (maxScore scores) scores with
    | some p => p.1
    | none => "projects"

/-- Spec wording of duration normalization: given the five scanned counts,
`days + weeks*7 + months*30 + years*365 + hours/24` truncated to an integer,
included only when the total is positive. -/
def specDurationFormula (hours days weeks months years : Option Nat) : Option Int :=
  if hours.isSome || days.isSome || weeks.isSome || months.isSome || years.isSome then
    let total : ℚ := (days.getD 0 : ℚ) + (weeks.getD 0 : ℚ) * 7 + (months.getD 0 : ℚ) * 30
      + (years.getD 0 : ℚ) * 365 + (hours.getD 0 : ℚ) / 24
    if 0 < total then some ⌊total⌋ else none
  else none

/-- `0 ≤ q ≤ 1`, the confidence-interval invariant. -/
def confIn01 (q : ℚ) : Prop := 0 ≤ q ∧ q ≤ 1

/-! ### Helper lemmas -/

theorem maxScore_nil : maxScore [] = 0 := rfl

theorem maxScore_cons (p : String × Nat) (t : List (String × Nat)) :
    maxScore (p :: t) = max p.2 (maxScore t) := rfl

theorem mem_le_maxScore {p : String × Nat} {l : List (String × Nat)} (h : p ∈ l) :
    p.2 ≤ maxScore l := by
  induction l with
  | nil => cases h
  | cons a t ih =>
    rcases List.mem_cons.mp h with rfl | hm
    · exact le_max_left _ _
    · exact le_trans (ih hm) (le_max_right _ _)

theorem exists_maxScore {l : List (String × Nat)} (h : 0 < maxScore l) :
    ∃ p ∈ l, p.2 = maxScore l := by
  induction l with
  | nil => simp [maxScore_nil] at h
  | cons a t ih =>
    rw [maxScore_cons] at h ⊢
    rcases le_or_lt (maxScore t) a.2 with hle | hlt
    · exact ⟨a, List.mem_cons_self a t, (max_eq_left hle).symm⟩
    · have ht : 0 < maxScore t := lt_of_le_of_lt (Nat.zero_le _) hlt
      obtain ⟨p, hp, hpe⟩ := ih ht
      exact ⟨p, List.mem_cons_of_mem _ hp, by rw [hpe, max_eq_right (le_of_lt hlt)]⟩

theorem foldl_pyMaxStep_stays (l : List (String × Nat)) :
    ∀ b : String × Nat, maxScore l ≤ b.2 → l.foldl IntentExtractionTool.pyMaxStep b = b := by
  induction l with
  | nil => intro b _; rfl
  | cons a t ih =>
    intro b hb
    rw [maxScore_cons, max_le_iff] at hb
    have hstep : IntentExtractionTool.pyMaxStep b a = b := by
      unfold IntentExtractionTool.pyMaxStep
      rw [if_neg (by omega)]
    rw [List.foldl_cons, hstep]
    exact ih b hb.2

theorem foldl_pyMaxStep_finds (l : List (String × Nat)) :
    ∀ (b q : String × Nat) (m : Nat), m = maxScore l → b.2 < m →
      firstWithScore m l = some q → l.foldl IntentExtractionTool.pyMaxStep b = q := by
  induction l with
  | nil =>
    intro b q m hm hb _
    rw [maxScore_nil] at hm
    omega
  | cons a t ih =>
    intro b q m hm hb hf
    rw [maxScore_cons] at hm
    by_cases ha : a.2 = m
    · have hfa : firstWithScore m (a :: t) = some a := by
        unfold firstWithScore
        rw [List.find?_cons_of_pos _ (by simpa using ha)]
      rw [hfa] at hf
      injection hf with hf
      subst hf
      have hstep : IntentExtractionTool.pyMaxStep b a = a := by
        unfold IntentExtractionTool.pyMaxStep
        rw [if_pos (by omega)]
      rw [List.foldl_cons, hstep]
      exact foldl_pyMaxStep_stays t a (by omega)
    · have hfa : firstWithScore m (a :: t) = firstWithScore m t := by
        unfold firstWithScore
        rw [List.find?_cons_of_neg _ (by simpa using ha)]
      rw [hfa] at hf
      have halt : a.2 < m := by
        have : a.2 ≤ m := by omega
        omega
      have hmt : m = maxScore t := by omega
      rw [List.foldl_cons]
      unfold IntentExtractionTool.pyMaxStep
      by_cases hba : a.2 > b.2
      · rw [if_pos hba]
        exact ih a q m hmt halt hf
      · rw [if_neg hba]
        exact ih b q m hmt hb hf

theorem find?_filter_of_imp {α : Type} (l : List α) (f g : α → Bool)
    (h : ∀ a, g a = true → f a = true) : (l.filter f).find? g = l.find? g := by
  induction l with
  | nil => rfl
  | cons a t ih =>
    by_cases hf : f a = true
    · rw [List.filter_cons_of_pos hf]
      by_cases hg : g a = true
      · rw [List.find?_cons_of_pos _ hg, List.find?_cons_of_pos _ hg]
      · rw [List.find?_cons_of_neg _ (by simpa using hg),
            List.find?_cons_of_neg _ (by simpa using hg)]
        exact ih
    · rw [List.filter_cons_of_neg (by simpa using hf)]
      have hg : ¬ g a = true := fun hga => hf (h a hga)
      rw [List.find?_cons_of_neg _ (by simpa using hg)]
      exact ih

theorem maxScore_filter_le (f : String × Nat → Bool) (l : List (String × Nat)) :
    maxScore (l.filter f) ≤ maxScore l := by
  induction l with
  | nil => simp [maxScore_nil]
  | cons a t ih =>
    by_cases hf : f a = true
    · rw [List.filter_cons_of_pos hf, maxScore_cons, maxScore_cons]
      omega
    · rw [List.filter_cons_of_neg (by simpa using hf), maxScore_cons]
      omega

theorem pyMaxKey_filter_eq_firstMax (L : List (String × Nat)) :
    (match IntentExtractionTool.pyMaxKey (L.filter (fun p => 0 < p.2)) with
     | some p => p.1
     | none => "projects")
    = if maxScore L = 0 then "projects"
      else
        match firstWithScore (maxScore L) L with
        | some p => p.1
        | none => "projects" := by
  by_cases h0 : maxScore L = 0
  · have hnil : L.filter (fun p => 0 < p.2) = [] := by
      rw [List.filter_eq_nil_iff]
      intro a ha
      have hle := mem_le_maxScore ha
      simp only [decide_eq_true_eq]
      omega
    rw [hnil, if_pos h0]
    rfl
  · have hm : 0 < maxScore L := Nat.pos_of_ne_zero h0
    obtain ⟨q, hqmem, hqe⟩ := exists_maxScore hm
    have hfind : ∃ qs, firstWithScore (maxScore L) L = some qs := by
      cases hfw : firstWithScore (maxScore L) L with
      | some qs => exact ⟨qs, rfl⟩
      | none =>
        exfalso
        have hnone := List.find?_eq_none.mp hfw q hqmem
        simp [hqe] at hnone
    obtain ⟨qs, hqs⟩ := hfind
    have hqsmem : qs ∈ L := List.mem_of_find?_eq_some hqs
    have hqse : qs.2 = maxScore L := by
      have hpred := List.find?_some hqs
      simpa using hpred
    have himp : ∀ a : String × Nat, (a.2 == maxScore L) = true → (decide (0 < a.2)) = true := by
      intro a ha
      have : a.2 = maxScore L := by simpa using ha
      simp only [decide_eq_true_eq]
      omega
    have hff : firstWithScore (maxScore L) (L.filter (fun p => 0 < p.2)) = some qs := by
      unfold firstWithScore
      rw [find?_filter_of_imp _ _ _ himp]
      exact hqs
    have hqsF : qs ∈ L.filter (fun p => 0 < p.2) := by
      rw [List.mem_filter]
      refine ⟨hqsmem, ?_⟩
      simp only [decide_eq_true_eq]
      omega
    rw [if_neg h0, hqs]
    cases hF : L.filter (fun p => 0 < p.2) with
    | nil =>
      exfalso
      rw [hF] at hqsF
      cases hqsF
    | cons f F2 =>
      rw [hF] at hff hqsF
      have hFeq : maxScore (f :: F2) = maxScore L := by
        apply le_antisymm
        · rw [← hF]
          exact maxScore_filter_le _ _
        · calc maxScore L = qs.2 := hqse.symm
            _ ≤ _ := mem_le_maxScore hqsF
      rw [maxScore_cons] at hFeq
      have hgoal : F2.foldl IntentExtractionTool.pyMaxStep f = qs := by
        by_cases hfm : f.2 = maxScore L
        · have hhead : firstWithScore (maxScore L) (f :: F2) = some f := by
            unfold firstWithScore
            rw [List.find?_cons_of_pos _ (by simpa using hfm)]
          rw [hhead] at hff
          injection hff with hff
          subst hff
          apply foldl_pyMaxStep_stays
          rcases max_choice f.2 (maxScore F2) with hc | hc <;> omega
        · have htail : firstWithScore (maxScore L) F2 = some qs := by
            have hstep : firstWithScore (maxScore L) (f :: F2) = firstWithScore (maxScore L) F2 := by
              unfold firstWithScore
              rw [List.find?_cons_of_neg _ (by simpa using hfm)]
            rw [← hstep]
            exact hff
          have hfle : f.2 ≤ maxScore L := by
            rcases max_choice f.2 (maxScore F2) with hc | hc <;> omega
          have hflt : f.2 < maxScore L := lt_of_le_of_ne hfle hfm
          have hmt : maxScore F2 = maxScore L := by
            rcases max_choice f.2 (maxScore F2) with hc | hc <;> omega
          exact foldl_pyMaxStep_finds F2 f qs (maxScore L) hmt.symm hflt htail
      show (F2.foldl IntentExtractionTool.pyMaxStep f).1 = qs.1
      rw [hgoal]

theorem calculate_confidence_bounds (d dm a o : String) :
    confIn01 (IntentExtractionTool.calculate_confidence d dm a o) := by
  unfold IntentExtractionTool.calculate_confidence confIn01
  constructor
  · exact le_max_left 0 _
  · exact max_le (by norm_num) (min_le_left _ _)

theorem calculate_confidence_ge_of_wc (d dm a o : String)
    (h : 10 ≤ (pyWords d).length) :
    2/5 ≤ IntentExtractionTool.calculate_confidence d dm a o := by
  unfold IntentExtractionTool.calculate_confidence
  have h5 : 5 ≤ (pyWords d).length := by omega
  have h3 : ¬ (pyWords d).length < 3 := by omega
  rw [if_pos h5, if_pos h, if_neg h3]
  refine le_trans ?_ (le_max_right 0 _)
  apply le_min (by norm_num)
  split_ifs <;> norm_num

theorem calculate_timeframe_confidence_bounds (phrases : List String)
    (sd ed : Option PyDateTime) :
    confIn01 (TimeframeParsingTool.calculate_timeframe_confidence phrases sd ed) := by
  unfold TimeframeParsingTool.calculate_timeframe_confidence confIn01
  constructor
  · apply le_min (by norm_num)
    split_ifs <;> norm_num
  · exact min_le_left _ _

theorem confidence_scores_nonneg (c : String) :
    0 ≤ MetricsIdentificationTool.confidence_scores c := by
  unfold MetricsIdentificationTool.confidence_scores
  split_ifs <;> norm_num

theorem calculate_metrics_confidence_bounds (metrics : List MetricRecord) :
    confIn01 (MetricsIdentificationTool.calculate_metrics_confidence metrics) := by
  unfold MetricsIdentificationTool.calculate_metrics_confidence confIn01
  by_cases hm : metrics = []
  · rw [if_pos hm]
    norm_num
  · rw [if_neg hm]
    constructor
    · apply le_min (by norm_num)
      apply div_nonneg
      · apply List.sum_nonneg
        intro x hx
        obtain ⟨m, _, rfl⟩ := List.mem_map.mp hx
        exact confidence_scores_nonneg m.confidence
      · exact_mod_cast Nat.zero_le _
    · exact min_le_left _ _

theorem calculate_constraint_confidence_bounds (cs : List ConstraintRecord) :
    confIn01 (ConstraintExtractionTool.calculate_constraint_confidence cs) := by
  unfold ConstraintExtractionTool.calculate_constraint_confidence confIn01
  by_cases hc : cs = []
  · rw [if_pos hc]
    norm_num
  · rw [if_neg hc]
    refine ⟨le_min (by norm_num) ?_, min_le_left _ _⟩
    have h1 : (0 : ℚ) ≤ (cs.length : ℚ) * (1/10) := by positivity
    have h2 : (0 : ℚ) ≤ min (2/5) ((cs.length : ℚ) * (1/10)) := le_min (by norm_num) h1
    linarith

theorem overall_confidence_bounds {a b c d : ℚ}
    (ha : confIn01 a) (hb : confIn01 b) (hc : confIn01 c) (hd : confIn01 d) :
    confIn01 (NLPAgent.calculate_overall_confidence a b c d) := by
  unfold NLPAgent.calculate_overall_confidence confIn01
  obtain ⟨ha0, ha1⟩ := ha
  obtain ⟨hb0, hb1⟩ := hb
  obtain ⟨hc0, hc1⟩ := hc
  obtain ⟨hd0, hd1⟩ := hd
  constructor <;> [linarith; linarith]

theorem intent_run_confidence (s : String) :
    (IntentExtractionTool.run s).confidence
      = IntentExtractionTool.calculate_confidence s
          (IntentExtractionTool.classify_domain (pyToLower s) IntentExtractionTool.domain_patterns)
          (IntentExtractionTool.extract_action s) (IntentExtractionTool.extract_outcome s) := rfl

theorem intent_run_confidence_bounds (s : String) :
    confIn01 (IntentExtractionTool.run s).confidence := by
  rw [intent_run_confidence]
  exact calculate_confidence_bounds _ _ _ _

theorem timeframe_run_confidence_bounds (now : PyDateTime) (s : String) :
    confIn01 (TimeframeParsingTool.run now s).confidence := by
  unfold TimeframeParsingTool.run TimeframeParsingTool.runBody
  cases hp : TimeframeParsingTool.parse_dates now s with
  | error e =>
    simp only [hp]
    unfold TimeframeParsingTool.fallback confIn01
    norm_num
  | ok pair =>
    obtain ⟨sd, ed⟩ := pair
    simp only [hp]
    exact calculate_timeframe_confidence_bounds _ _ _

theorem metrics_run_confidence_bounds (s : String) :
    confIn01 (MetricsIdentificationTool.run s).confidence := by
  simp only [MetricsIdentificationTool.run, MetricsIdentificationTool.runBody]
  exact calculate_metrics_confidence_bounds _

theorem constraints_run_confidence_bounds (s : String) :
    confIn01 (ConstraintExtractionTool.run s).confidence := by
  simp only [ConstraintExtractionTool.run, ConstraintExtractionTool.runBody]
  exact calculate_constraint_confidence_bounds _

theorem process_overall_confidence_bounds (now : PyDateTime) (s : String) :
    confIn01 (NLPAgent.process_goal_description now s).overall_confidence := by
  simp only [NLPAgent.process_goal_description]
  exact overall_confidence_bounds (intent_run_confidence_bounds s)
    (timeframe_run_confidence_bounds now s) (metrics_run_confidence_bounds s)
    (constraints_run_confidence_bounds s)

theorem take5_len_le {α : Type} (l : List α) : (l.take 5).length ≤ 5 := by
  rw [List.length_take]
  exact min_le_left _ _

/-! ### Claims -/

/-- C1: for every input description (and every model clock value and error
message), every confidence value appearing in an extractor's result — on the
normal path and on the fallback path — and the aggregated report's
`overall_confidence` lie in the closed interval [0, 1]. -/
theorem claim_C1 (now : PyDateTime) (s e d : String) :
    confIn01 (IntentExtractionTool.run s).confidence ∧
    confIn01 (TimeframeParsingTool.run now s).confidence ∧
    confIn01 (MetricsIdentificationTool.run s).confidence ∧
    confIn01 (ConstraintExtractionTool.run s).confidence ∧
    confIn01 (NLPAgent.process_goal_description now s).overall_confidence ∧
    confIn01 (IntentExtractionTool.fallback e).confidence ∧
    confIn01 (TimeframeParsingTool.fallback e).confidence ∧
    confIn01 (MetricsIdentificationTool.fallback e).confidence ∧
    confIn01 (ConstraintExtractionTool.fallback e).confidence ∧
    confIn01 (NLPAgent.create_fallback_analysis now d e).overall_confidence := by
  refine ⟨intent_run_confidence_bounds s, timeframe_run_confidence_bounds now s,
    metrics_run_confidence_bounds s, constraints_run_confidence_bounds s,
    process_overall_confidence_bounds now s, ?_, ?_, ?_, ?_, ?_⟩ <;>
    constructor <;> norm_num [IntentExtractionTool.fallback, TimeframeParsingTool.fallback,
      MetricsIdentificationTool.fallback, ConstraintExtractionTool.fallback,
      NLPAgent.create_fallback_analysis, confIn01]

/-- C3: the intent classifier is total — for every input string its result
is the value of the `try` body, so no exception propagates — and the
`except` handler's fixed fallback carries exactly domain `"projects"`,
action `"achieve"`, outcome `"goal completion"`, urgency `"medium"` and
confidence 0.3, for every error message. -/
theorem claim_C3 (s e : String) :
    IntentExtractionTool.run s = IntentExtractionTool.runBody s ∧
    (IntentExtractionTool.fallback e).domain = "projects" ∧
    (IntentExtractionTool.fallback e).action = "achieve" ∧
    (IntentExtractionTool.fallback e).outcome = "goal completion" ∧
    (IntentExtractionTool.fallback e).urgency = "medium" ∧
    (IntentExtractionTool.fallback e).confidence = 3/10 :=
  ⟨rfl, rfl, rfl, rfl, rfl, rfl⟩

/-- C6: for every description (and clock value), the returned metrics list,
the returned milestones list and the aggregator's recommendations list all
have length at most 5, on the normal paths and on the fallback paths. -/
theorem claim_C6 (now : PyDateTime) (s e d : String) :
    (MetricsIdentificationTool.run s).metrics.length ≤ 5 ∧
    (TimeframeParsingTool.run now s).milestones.length ≤ 5 ∧
    (NLPAgent.process_goal_description now s).recommendations.length ≤ 5 ∧
    (MetricsIdentificationTool.fallback e).metrics.length ≤ 5 ∧
    (NLPAgent.create_fallback_analysis now d e).recommendations.length ≤ 5 := by
  refine ⟨?_, ?_, ?_, ?_, ?_⟩
  · simp only [MetricsIdentificationTool.run, MetricsIdentificationTool.runBody]
    exact take5_len_le _
  · unfold TimeframeParsingTool.run TimeframeParsingTool.runBody
    cases hp : TimeframeParsingTool.parse_dates now s with
    | error e2 =>
      simp only [hp]
      simp [TimeframeParsingTool.fallback]
    | ok pair =>
      obtain ⟨sd, ed⟩ := pair
      simp only [hp]
      exact take5_len_le _
  · simp only [NLPAgent.process_goal_description, NLPAgent.generate_recommendations]
    exact take5_len_le _
  · simp [MetricsIdentificationTool.fallback]
  · simp [NLPAgent.create_fallback_analysis]

/-- C7: for every description, the constraint extractor's `total_count`
equals the length of its `constraints` list, on the normal path and on the
internal-error fallback path. -/
theorem claim_C7 (s e : String) :
    (ConstraintExtractionTool.run s).total_count
      = (ConstraintExtractionTool.run s).constraints.length ∧
    (ConstraintExtractionTool.fallback e).total_count
      = (ConstraintExtractionTool.fallback e).constraints.length := by
  constructor
  · simp only [ConstraintExtractionTool.run, ConstraintExtractionTool.runBody]
  · rfl

theorem parse_dates_start_iff_end (now : PyDateTime) (s : String)
    (sd ed : Option PyDateTime)
    (h : TimeframeParsingTool.parse_dates now s = .ok (sd, ed)) :
    (sd.isSome ↔ ed.isSome) := by
  unfold TimeframeParsingTool.parse_dates at h
  cases hE : TimeframeParsingTool.explicitEndDate now s with
  | some d =>
    rw [hE] at h
    injection h with h
    simp only [Prod.mk.injEq] at h
    obtain ⟨rfl, rfl⟩ := h
    simp
  | none =>
    rw [hE] at h
    cases hR : TimeframeParsingTool.parse_relative_dates now s with
    | error e =>
      rw [hR] at h
      simp at h
    | ok ed0 =>
      rw [hR] at h
      injection h with h
      simp only [Prod.mk.injEq] at h
      obtain ⟨rfl, rfl⟩ := h
      by_cases hed : ed0.isSome <;> simp [hed]

/-- C10: in every timeframe result produced on the non-error path,
`startDate` is non-null if and only if `endDate` is non-null (the start date
is set to the current time exactly when an end date has been found). -/
theorem claim_C10 (now : PyDateTime) (s : String) (r : TimeframeResult)
    (h : TimeframeParsingTool.runBody now s = .ok r) :
    (r.startDate.isSome ↔ r.endDate.isSome) := by
  unfold TimeframeParsingTool.runBody at h
  cases hp : TimeframeParsingTool.parse_dates now s with
  | error e =>
    rw [hp] at h
    simp at h
  | ok pair =>
    obtain ⟨sd, ed⟩ := pair
    rw [hp] at h
    injection h with h
    subst h
    exact parse_dates_start_iff_end now s sd ed hp

/-- Witness for C10 at the concrete description `"by tomorrow"` and a
concrete clock value: the body succeeds and the produced result satisfies
the start/end iff. -/
theorem claim_C10_witness :
    ∃ r, TimeframeParsingTool.runBody { year := 2025, month := 3, day := 10 } "by tomorrow"
        = Except.ok r ∧ (r.startDate.isSome ↔ r.endDate.isSome) := by
  cases h : TimeframeParsingTool.runBody { year := 2025, month := 3, day := 10 } "by tomorrow" with
  | ok r => exact ⟨r, rfl, claim_C10 _ _ r h⟩
  | error e =>
    exfalso
    have hok : (TimeframeParsingTool.runBody { year := 2025, month := 3, day := 10 }
        "by tomorrow").isOk = true := by decide
    rw [h] at hok
    simp [Except.isOk, Except.toBool] at hok

/-- C5: for every description, the chosen domain is the first-declared
domain among the 10 fixed ones with the maximum number of keywords occurring
as substrings of the lower-cased description, defaulting to `"projects"`
when no domain scores above 0 (`specDomainChoice` transcribes the spec's
wording). -/
theorem claim_C5 (s : String) : (IntentExtractionTool.run s).domain = specDomainChoice s := by
  have h1 : (IntentExtractionTool.run s).domain
      = IntentExtractionTool.classify_domain (pyToLower s) IntentExtractionTool.domain_patterns := by
    simp only [IntentExtractionTool.run, IntentExtractionTool.runBody]
  rw [h1]
  unfold IntentExtractionTool.classify_domain specDomainChoice
  exact pyMaxKey_filter_eq_firstMax _

/-- C4: for every description, the duration is exactly the spec's
normalization formula applied to the five scanned unit counts
(`days + weeks*7 + months*30 + years*365 + hours/24`, truncated, included
only when positive), and in particular `"in 3 weeks"` yields
`{'days': 21}`. -/
theorem claim_C4 :
    (∀ s : String, TimeframeParsingTool.extract_duration s
        = specDurationFormula
            (TimeframeParsingTool.firstNum TimeframeParsingTool.patDurHours (pyToLower s))
            (TimeframeParsingTool.firstNum TimeframeParsingTool.patDurDays (pyToLower s))
            (TimeframeParsingTool.firstNum TimeframeParsingTool.patDurWeeks (pyToLower s))
            (TimeframeParsingTool.firstNum TimeframeParsingTool.patDurMonths (pyToLower s))
            (TimeframeParsingTool.firstNum TimeframeParsingTool.patDurYears (pyToLower s)))
    ∧ TimeframeParsingTool.extract_duration "in 3 weeks" = some 21 := by
  constructor
  · intro s
    rfl
  · have hh : TimeframeParsingTool.firstNum TimeframeParsingTool.patDurHours
        (pyToLower "in 3 weeks") = none := by decide
    have hd : TimeframeParsingTool.firstNum TimeframeParsingTool.patDurDays
        (pyToLower "in 3 weeks") = none := by decide
    have hw : TimeframeParsingTool.firstNum TimeframeParsingTool.patDurWeeks
        (pyToLower "in 3 weeks") = some 3 := by decide
    have hm : TimeframeParsingTool.firstNum TimeframeParsingTool.patDurMonths
        (pyToLower "in 3 weeks") = none := by decide
    have hy : TimeframeParsingTool.firstNum TimeframeParsingTool.patDurYears
        (pyToLower "in 3 weeks") = none := by decide
    unfold TimeframeParsingTool.extract_duration
    simp only [hh, hd, hw, hm, hy, Option.isSome_some, Option.isSome_none, Bool.false_or,
      Bool.or_false, if_true, Option.getD_some, Option.getD_none]
    rw [show ((0 : ℕ) : ℚ) + ((3 : ℕ) : ℚ) * 7 + ((0 : ℕ) : ℚ) * 30 + ((0 : ℕ) : ℚ) * 365
        + ((0 : ℕ) : ℚ) / 24 = ((21 : ℤ) : ℚ) by push_cast; norm_num]
    rw [if_pos (by norm_num : (0 : ℚ) < ((21 : ℤ) : ℚ)), Int.floor_intCast]

/-- C2 (amended): the intent, metrics and constraints extractors are pure
functions of the description string alone — repeated calls agree, and the
sub-results inside aggregated reports built at different clock times are
identical — and the timeframe extractor is deterministic once the current
time is fixed.  (As originally stated the claim fails: the timeframe
extractor also depends on the current time, see the counterexample.) -/
theorem claim_C2 (s : String) (now now2 : PyDateTime) :
    IntentExtractionTool.run s = IntentExtractionTool.run s ∧
    MetricsIdentificationTool.run s = MetricsIdentificationTool.run s ∧
    ConstraintExtractionTool.run s = ConstraintExtractionTool.run s ∧
    TimeframeParsingTool.run now s = TimeframeParsingTool.run now s ∧
    (NLPAgent.process_goal_description now s).intent
      = (NLPAgent.process_goal_description now2 s).intent ∧
    (NLPAgent.process_goal_description now s).metrics
      = (NLPAgent.process_goal_description now2 s).metrics ∧
    (NLPAgent.process_goal_description now s).constraints
      = (NLPAgent.process_goal_description now2 s).constraints := by
  refine ⟨rfl, rfl, rfl, rfl, ?_, ?_, ?_⟩ <;> simp only [NLPAgent.process_goal_description]

/-- Counterexample to C2 as stated: the timeframe extractor applied to the
same description `"tomorrow"` at two different clock times returns different
outputs (the relative-date table and the start date both use
`datetime.now()`). -/
theorem claim_C2_counterexample :
    TimeframeParsingTool.run { year := 2025, month := 3, day := 10 } "tomorrow"
      ≠ TimeframeParsingTool.run { year := 2025, month := 3, day := 11 } "tomorrow" := by
  intro h
  have h2 := congrArg (fun r => r.endDate.map PyDateTime.day) h
  simp only at h2
  have e1 : (TimeframeParsingTool.run { year := 2025, month := 3, day := 10 }
      "tomorrow").endDate.map PyDateTime.day = some 11 := by decide
  have e2 : (TimeframeParsingTool.run { year := 2025, month := 3, day := 11 }
      "tomorrow").endDate.map PyDateTime.day = some 12 := by decide
  rw [e1, e2] at h2
  exact absurd h2 (by decide)

/-- C8: every description that contains an explicit numeric metric (the
metrics tool's explicit scan finds something), a concrete date (the date
patterns match), and at least 10 words yields an intent confidence strictly
greater than that of the vague string `"do stuff"` (whose confidence is 0). -/
theorem claim_C8 (s : String)
    (hmetric : MetricsIdentificationTool.explicitMetrics s ≠ [])
    (hdate : TimeframeParsingTool.dateMatchList s ≠ [])
    (hwords : 10 ≤ (pyWords s).length) :
    (IntentExtractionTool.run "do stuff").confidence
      < (IntentExtractionTool.run s).confidence := by
  have ha : IntentExtractionTool.extract_action "do stuff" = "achieve" := by decide
  have ho : IntentExtractionTool.extract_outcome "do stuff" = "do stuff" := by decide
  have hdm : IntentExtractionTool.classify_domain (pyToLower "do stuff")
      IntentExtractionTool.domain_patterns = "projects" := by decide
  have hw2 : (pyWords "do stuff").length = 2 := by decide
  have hv : containsAny (pyToLower "do stuff") IntentExtractionTool.vagueWords = true := by
    decide
  have hol : ("do stuff" : String).length = 8 := by decide
  have hL : (IntentExtractionTool.run "do stuff").confidence = 0 := by
    rw [intent_run_confidence, hdm, ha, ho]
    unfold IntentExtractionTool.calculate_confidence
    rw [hw2, hol, hv]
    norm_num
  have hR := calculate_confidence_ge_of_wc s
    (IntentExtractionTool.classify_domain (pyToLower s) IntentExtractionTool.domain_patterns)
    (IntentExtractionTool.extract_action s) (IntentExtractionTool.extract_outcome s) hwords
  rw [hL, intent_run_confidence]
  linarith

/-- Witness for C8: the concrete description
`"lose 20 pounds by 12/31/2025 run 5 miles a b c"` has an explicit numeric
metric, a concrete date and 11 words, and its intent confidence strictly
exceeds that of `"do stuff"`. -/
theorem claim_C8_witness :
    MetricsIdentificationTool.explicitMetrics
        "lose 20 pounds by 12/31/2025 run 5 miles a b c" ≠ [] ∧
    TimeframeParsingTool.dateMatchList
        "lose 20 pounds by 12/31/2025 run 5 miles a b c" ≠ [] ∧
    10 ≤ (pyWords "lose 20 pounds by 12/31/2025 run 5 miles a b c").length ∧
    (IntentExtractionTool.run "do stuff").confidence
      < (IntentExtractionTool.run "lose 20 pounds by 12/31/2025 run 5 miles a b c").confidence :=
  ⟨by decide, by decide, by decide,
    claim_C8 "lose 20 pounds by 12/31/2025 run 5 miles a b c"
      (by decide) (by decide) (by decide)⟩

/-- C9 (amended): the aggregator's total-failure fallback report mirrors
each extractor's own fallback up to reasoning strings: the timeframe
sub-result equals the timeframe fallback minus its `error` field, the
metrics and constraints sub-results equal their fallbacks up to reasoning
text, and the report ends with two generic error recommendations — but the
intent sub-result carries confidence 0.2, NOT the intent classifier's own
fallback confidence of 0.3 (the other intent fields do match).  (As
originally stated the claim fails on the intent confidence, see the
counterexample.) -/
theorem claim_C9 (now : PyDateTime) (d e e2 : String) :
    (NLPAgent.create_fallback_analysis now d e).intent
      = { IntentExtractionTool.fallback e2 with
          confidence := 1/5,
          reasoning := "Fallback analysis due to error: " ++ e } ∧
    (NLPAgent.create_fallback_analysis now d e).intent.confidence = 1/5 ∧
    (IntentExtractionTool.fallback e2).confidence = 3/10 ∧
    ¬ ((1 : ℚ)/5 = 3/10) ∧
    (NLPAgent.create_fallback_analysis now d e).timeframe
      = { TimeframeParsingTool.fallback e2 with error := none } ∧
    (NLPAgent.create_fallback_analysis now d e).metrics
      = { MetricsIdentificationTool.fallback e2 with
          metrics := (MetricsIdentificationTool.fallback e2).metrics.map
            (fun m => { m with reasoning := "Fallback metric" }),
          reasoning := "Fallback metrics due to processing error" } ∧
    (NLPAgent.create_fallback_analysis now d e).constraints
      = { ConstraintExtractionTool.fallback e2 with
          reasoning := "No constraints identified due to processing error" } ∧
    (NLPAgent.create_fallback_analysis now d e).recommendations
      = ["Retry analysis with simplified description", "Consider manual goal creation"] :=
  ⟨rfl, rfl, rfl, by norm_num, rfl, rfl, rfl, rfl⟩

/-- Counterexample to C9 as stated: in the aggregator's fallback report the
intent sub-result's confidence is 0.2, which differs from the intent
classifier's own documented fallback confidence 0.3. -/
theorem claim_C9_counterexample :
    (NLPAgent.create_fallback_analysis { year := 2025, month := 1, day := 1 }
        "x" "boom").intent.confidence
      ≠ (IntentExtractionTool.fallback "boom").confidence := by
  show ¬ ((1 : ℚ)/5 = 3/10)
  norm_num
